import Mathlib

/-!
Shallow embedding of the latent-worker lifecycle controller from
master/buildbot/test/fake/latent.py (classes LatentController and
ControllableLatentWorker).

The controller state is embedded as a record; each Python method becomes a
pure function on that record.  Methods that can raise (a failing assert, a
callback on a missing deferred, an await of a non-awaitable value, the
SkipTest when the buildbot-worker package is missing) return Option, with
none modelling the raised exception.  Deferred results that the fake hands
back to its caller are returned alongside the new state.

Kinds are abstract comparable tokens; the configured kind of a controller may
be absent (Python None) or a renderable evaluated against a build, which is
embedded as a function from builds to optional kinds.  The pair of fields
started_kind / started_kind_deferred mirrors LatentController._started_kind
and LatentController._started_kind_deferred: the deferred slot holds either
nothing (Python None, falsy), a pending render against a recorded build, or
the raw non-None kind object stored by setup_kind when no build was given
(awaiting such a raw object raises TypeError in Python, hence Option.none).

Two instrumentation counters are added to the record so that theorems can
observe behaviour the Python code exhibits operationally: sessions_created
counts RemoteWorker sessions built by connect_worker, and kind_evals counts
evaluations of the pending kind deferred by get_started_kind.  No modelled
operation reads them.
-/

namespace LatentFake

/-- The four lifecycle states of the fake latent worker (enum States). -/
inductive States where
  | STOPPED
  | STARTING
  | STARTED
  | STOPPING
deriving DecidableEq

/-- The configured kind of a controller: Python None, or a renderable value
evaluated against a build (a constant kind is the constant function). -/
inductive KindCfg (Build Kind : Type) where
  | none
  | renderable (f : Build → Option Kind)

/-- Evaluation of build.render(kind): rendering None yields None, rendering a
renderable applies it to the build. -/
def renderKind {Build Kind : Type} (b : Build) : KindCfg Build Kind → Option Kind
  | KindCfg.none => Option.none
  | KindCfg.renderable f => f b

/-- Contents of LatentController._started_kind_deferred: nothing (Python None),
a deferred created by build.render(self.kind) remembering the build, or the
raw non-None kind object stored by setup_kind when build was falsy. -/
inductive Slot (Build : Type) where
  | empty
  | pending (b : Build)
  | rawCfg
deriving DecidableEq

/-- Result of ControllableLatentWorker.start_instance: an immediately
succeeding deferred (auto_start path) or the pending _start_deferred. -/
inductive StartRet where
  | immediate (b : Bool)
  | pendingStart

/-- Result of ControllableLatentWorker.stop_instance: an immediate True
(auto_stop path) or the pending _stop_deferred. -/
inductive StopRet where
  | immediate (b : Bool)
  | pendingStop

/-- The mutable state of a LatentController together with the flags consulted
by its ControllableLatentWorker.  remote_pkg models whether the optional
buildbot-worker import succeeded (RemoteWorker is not None). -/
structure Ctrl (Build Kind : Type) where
  state : States
  has_crashed : Bool
  kind : KindCfg Build Kind
  started_kind : Option Kind
  started_kind_deferred : Slot Build
  auto_start_flag : Bool
  auto_stop_flag : Bool
  auto_connect_worker : Bool
  auto_disconnect_worker : Bool
  remote_worker : Option Unit
  remote_pkg : Bool
  build_wait_timeout : Nat
  start_deferred : Option Unit
  stop_deferred : Option Unit
  sessions_created : Nat
  kind_evals : Nat

variable {Build Kind : Type} [DecidableEq Kind]

/-- LatentController.__init__: state STOPPED, no crash, all auto flags as in
the constructor, no remote worker, no pending deferreds, no started kind. -/
def initController (kind : KindCfg Build Kind) (remote_pkg : Bool)
    (build_wait_timeout : Nat) : Ctrl Build Kind :=
  { state := States.STOPPED
    has_crashed := false
    kind := kind
    started_kind := Option.none
    started_kind_deferred := Slot.empty
    auto_start_flag := false
    auto_stop_flag := false
    auto_connect_worker := true
    auto_disconnect_worker := true
    remote_worker := Option.none
    remote_pkg := remote_pkg
    build_wait_timeout := build_wait_timeout
    start_deferred := Option.none
    stop_deferred := Option.none
    sessions_created := 0
    kind_evals := 0 }

/-- LatentController.connect_worker: returns at once when a remote worker is
already attached; raises SkipTest (none) when the buildbot-worker package is
missing; otherwise builds and attaches a fresh RemoteWorker session. -/
def connect_worker (s : Ctrl Build Kind) : Option (Ctrl Build Kind) :=
  if s.remote_worker.isSome then some s
  else if s.remote_pkg = false then Option.none
  else some { s with remote_worker := some ()
                     sessions_created := s.sessions_created + 1 }

/-- LatentController.disconnect_worker: severs the connection and drops the
remote worker reference (the mixin call touches nothing modelled here). -/
def disconnect_worker (s : Ctrl Build Kind) : Ctrl Build Kind :=
  { s with remote_worker := Option.none }

/-- LatentController.do_start_instance: asserts STARTING, moves to STARTED,
and connects the worker when auto_connect_worker is set and result is True. -/
def do_start_instance (result : Bool) (s : Ctrl Build Kind) :
    Option (Ctrl Build Kind) :=
  if s.state = States.STARTING then
    if s.auto_connect_worker && result then
      connect_worker { s with state := States.STARTED }
    else some { s with state := States.STARTED }
  else Option.none

/-- LatentController.start_instance: runs do_start_instance, then fires the
pending _start_deferred with the given result (a missing deferred makes the
d.callback crash, modelled as none).  The returned Bool is the value
delivered to the waiter. -/
def ctrl_start_instance (result : Bool) (s : Ctrl Build Kind) :
    Option (Ctrl Build Kind × Bool) :=
  (do_start_instance result s).bind fun s1 =>
    match s1.start_deferred with
    | Option.none => Option.none
    | some _ => some ({ s1 with start_deferred := Option.none }, result)

/-- LatentController.do_stop_instance: asserts STOPPING, moves to STOPPED,
clears _started_kind, and disconnects when auto_disconnect_worker is set. -/
def do_stop_instance (s : Ctrl Build Kind) : Option (Ctrl Build Kind) :=
  if s.state = States.STOPPING then
    if s.auto_disconnect_worker then
      some (disconnect_worker
        { s with state := States.STOPPED, started_kind := Option.none })
    else some { s with state := States.STOPPED, started_kind := Option.none }
  else Option.none

/-- LatentController.stop_instance: runs do_stop_instance, then fires the
pending _stop_deferred with the given result.  The returned Bool is the value
delivered to the waiter. -/
def ctrl_stop_instance (result : Bool) (s : Ctrl Build Kind) :
    Option (Ctrl Build Kind × Bool) :=
  (do_stop_instance s).bind fun s1 =>
    match s1.stop_deferred with
    | Option.none => Option.none
    | some _ => some ({ s1 with stop_deferred := Option.none }, result)

/-- LatentController.setup_kind: with a build, stores the render deferred;
without one, stores self.kind itself, which is falsy (empty) when the kind is
None and a raw non-awaitable object otherwise. -/
def setup_kind (build : Option Build) (s : Ctrl Build Kind) : Ctrl Build Kind :=
  match build with
  | some b => { s with started_kind_deferred := Slot.pending b }
  | Option.none =>
    match s.kind with
    | KindCfg.none => { s with started_kind_deferred := Slot.empty }
    | KindCfg.renderable _ => { s with started_kind_deferred := Slot.rawCfg }

/-- LatentController.get_started_kind: when the deferred slot is truthy it is
awaited, the result stored in _started_kind and the slot cleared; awaiting
the raw kind object raises TypeError (none); otherwise the stored kind is
returned unchanged. -/
def get_started_kind (s : Ctrl Build Kind) :
    Option (Option Kind × Ctrl Build Kind) :=
  match s.started_kind_deferred with
  | Slot.empty => some (s.started_kind, s)
  | Slot.pending b =>
    some (renderKind b s.kind,
      { s with started_kind := renderKind b s.kind
               started_kind_deferred := Slot.empty
               kind_evals := s.kind_evals + 1 })
  | Slot.rawCfg => Option.none

/-- The kind value that get_started_kind would deliver at this state: the
pending render when one is recorded, the stored kind otherwise. -/
def started_kind_value (s : Ctrl Build Kind) : Option Kind :=
  match s.started_kind_deferred with
  | Slot.pending b => renderKind b s.kind
  | _ => s.started_kind

/-- ControllableLatentWorker.isCompatibleWithBuild: True when STOPPED,
otherwise renders the configured kind against the requesting build and
compares it with the kind obtained from get_started_kind. -/
def isCompatibleWithBuild (build_props : Build) (s : Ctrl Build Kind) :
    Option (Bool × Ctrl Build Kind) :=
  if s.state = States.STOPPED then some (true, s)
  else
    (get_started_kind s).map fun p =>
      (decide (renderKind build_props s.kind = p.1), p.2)

/-- ControllableLatentWorker.start_instance: records the kind via setup_kind,
asserts STOPPED, moves to STARTING, then either completes at once through
do_start_instance (auto_start_flag) or parks a fresh _start_deferred. -/
def worker_start_instance (build : Option Build) (s : Ctrl Build Kind) :
    Option (Ctrl Build Kind × StartRet) :=
  if (setup_kind build s).state = States.STOPPED then
    if (setup_kind build s).auto_start_flag then
      (do_start_instance true
          { setup_kind build s with state := States.STARTING }).map
        fun s2 => (s2, StartRet.immediate true)
    else
      some ({ setup_kind build s with
              state := States.STARTING,
              start_deferred := some () }, StartRet.pendingStart)
  else Option.none

/-- ControllableLatentWorker.stop_instance: asserts STARTED, moves to
STOPPING, then either completes at once through do_stop_instance
(auto_stop_flag) or parks a fresh _stop_deferred.  The fast argument is
accepted and ignored, as in the fake. -/
def worker_stop_instance (_fast : Bool) (s : Ctrl Build Kind) :
    Option (Ctrl Build Kind × StopRet) :=
  if s.state = States.STARTED then
    if s.auto_stop_flag then
      (do_stop_instance { s with state := States.STOPPING }).map
        fun s2 => (s2, StopRet.immediate true)
    else
      some ({ s with state := States.STOPPING, stop_deferred := some () },
        StopRet.pendingStop)
  else Option.none

/-- LatentController.auto_start: records the flag, and when it is set while
STARTING immediately resolves the pending start with True. -/
def auto_start (result : Bool) (s : Ctrl Build Kind) : Option (Ctrl Build Kind) :=
  if result = true ∧ s.state = States.STARTING then
    (ctrl_start_instance true { s with auto_start_flag := result }).map Prod.fst
  else some { s with auto_start_flag := result }

/-- LatentController.auto_stop: records the flag, and when it is set while
STOPPING immediately resolves the pending stop with True. -/
def auto_stop (result : Bool) (s : Ctrl Build Kind) : Option (Ctrl Build Kind) :=
  if result = true ∧ s.state = States.STOPPING then
    (ctrl_stop_instance true { s with auto_stop_flag := result }).map Prod.fst
  else some { s with auto_stop_flag := result }

/-- ControllableLatentWorker.check_instance: healthy exactly when the
controller has not crashed, with an always-empty reason string. -/
def check_instance (s : Ctrl Build Kind) : Bool × String :=
  (!s.has_crashed, "")

/-- Modelled from the spec: the orchestration layer (buildbot's
AbstractLatentWorker, whose source is not part of the embedded files; only
its fake subclass is) reacts to a start operation that resolved with failure
by driving a stop cycle, so that the worker returns to STOPPED before any
later substantiate attempt.  The composition uses only the fake's own
operations: the pending start is resolved with False, stop_instance is
invoked, and a parked stop deferred is then resolved.  The returned Bool is
the value the start resolution delivered to the waiter of that start
operation. -/
def start_failure_cycle (s : Ctrl Build Kind) : Option (Ctrl Build Kind × Bool) :=
  (ctrl_start_instance false s).bind fun p1 =>
    (worker_stop_instance false p1.1).bind fun p2 =>
      match p2.2 with
      | StopRet.immediate _ => some (p2.1, p1.2)
      | StopRet.pendingStop =>
        (ctrl_stop_instance true p2.1).map fun p3 => (p3.1, p1.2)

/-- One public operation of the fake, as a step relation on
controller states: the worker's start/stop/compatibility entry points, the
controller's resolution helpers, the auto-mode toggles, and the connection
helpers.  setup_kind and get_started_kind occur inside these operations,
which are their only call sites within the embedded source. -/
inductive Step : Ctrl Build Kind → Ctrl Build Kind → Prop where
  | startI {s s1 : Ctrl Build Kind} (b : Option Build) (r : StartRet) :
      worker_start_instance b s = some (s1, r) → Step s s1
  | resolveStart {s s1 : Ctrl Build Kind} (v : Bool) (r : Bool) :
      ctrl_start_instance v s = some (s1, r) → Step s s1
  | doStart {s s1 : Ctrl Build Kind} (v : Bool) :
      do_start_instance v s = some s1 → Step s s1
  | stopI {s s1 : Ctrl Build Kind} (fast : Bool) (r : StopRet) :
      worker_stop_instance fast s = some (s1, r) → Step s s1
  | resolveStop {s s1 : Ctrl Build Kind} (v : Bool) (r : Bool) :
      ctrl_stop_instance v s = some (s1, r) → Step s s1
  | doStop {s s1 : Ctrl Build Kind} :
      do_stop_instance s = some s1 → Step s s1
  | autoStart {s s1 : Ctrl Build Kind} (v : Bool) :
      auto_start v s = some s1 → Step s s1
  | autoStop {s s1 : Ctrl Build Kind} (v : Bool) :
      auto_stop v s = some s1 → Step s s1
  | connect {s s1 : Ctrl Build Kind} :
      connect_worker s = some s1 → Step s s1
  | disconnect {s : Ctrl Build Kind} : Step s (disconnect_worker s)
  | compat {s s1 : Ctrl Build Kind} (b : Build) (r : Bool) :
      isCompatibleWithBuild b s = some (r, s1) → Step s s1

/-- Controller states reachable from a freshly constructed controller by the
operations of the fake. -/
inductive Reachable : Ctrl Build Kind → Prop where
  | init (kind : KindCfg Build Kind) (pkg : Bool) (bwt : Nat) :
      Reachable (initController kind pkg bwt)
  | step {s s1 : Ctrl Build Kind} : Reachable s → Step s s1 → Reachable s1

/-- Allowed single-call state changes: staying put, one of the four machine
edges, or one of the two-edge paths STOPPED-STARTING-STARTED and
STARTED-STOPPING-STOPPED performed within a single call by the
auto_start_flag / auto_stop_flag fast paths. -/
def edgeOk (a b : States) : Bool :=
  decide (a = b)
    || (decide (a = States.STOPPED) && decide (b = States.STARTING))
    || (decide (a = States.STARTING) && decide (b = States.STARTED))
    || (decide (a = States.STARTED) && decide (b = States.STOPPING))
    || (decide (a = States.STOPPING) && decide (b = States.STOPPED))
    || (decide (a = States.STOPPED) && decide (b = States.STARTED))
    || (decide (a = States.STARTED) && decide (b = States.STOPPED))

/-- Invariant tying the started kind to the lifecycle: the stored kind is
cleared whenever the controller is STOPPED, and while it holds a value no
render is pending in the deferred slot. -/
def Inv (s : Ctrl Build Kind) : Prop :=
  (s.state = States.STOPPED → s.started_kind = Option.none)
    ∧ (∀ k : Kind, s.started_kind = some k →
        ∀ b : Build, s.started_kind_deferred ≠ Slot.pending b)

/-- Concrete kind configuration over Nat builds and Nat kinds: every build
renders the configured kind to the token 0. -/
def kindAll0 : KindCfg Nat Nat := KindCfg.renderable fun _ => some 0

/-- Concrete freshly constructed controller used in concrete runs. -/
def run0 : Ctrl Nat Nat := initController kindAll0 true 600

/-- run0 after worker start_instance with build 1: STARTING, render pending. -/
def run1 : Ctrl Nat Nat :=
  { run0 with
    state := States.STARTING,
    started_kind_deferred := Slot.pending 1,
    start_deferred := some () }

/-- run1 after isCompatibleWithBuild evaluated the pending kind: the render
result 0 is stored and the slot cleared. -/
def run2 : Ctrl Nat Nat :=
  { run1 with
    started_kind := some 0,
    started_kind_deferred := Slot.empty,
    kind_evals := 1 }

/-- run2 after do_start_instance with a False result: STARTED, no session. -/
def run3 : Ctrl Nat Nat := { run2 with state := States.STARTED }

/-- run3 after worker stop_instance: STOPPING with a parked stop deferred. -/
def run4 : Ctrl Nat Nat :=
  { run3 with
    state := States.STOPPING,
    stop_deferred := some () }

/-- Concrete kind configuration over Bool builds: the build True renders the
kind to 0 and the build False renders it to None (absent kind). -/
def kindOnTrue : KindCfg Bool Nat :=
  KindCfg.renderable fun b => if b then some 0 else Option.none

/-- Concrete freshly constructed controller over kindOnTrue. -/
def brun0 : Ctrl Bool Nat := initController kindOnTrue true 600

/-- brun0 after worker start_instance with build True. -/
def brun1 : Ctrl Bool Nat :=
  { brun0 with
    state := States.STARTING,
    started_kind_deferred := Slot.pending true,
    start_deferred := some () }

/-- brun1 after isCompatibleWithBuild evaluated the pending kind to 0. -/
def brun2 : Ctrl Bool Nat :=
  { brun1 with
    started_kind := some 0,
    started_kind_deferred := Slot.empty,
    kind_evals := 1 }

/-- brun2 after do_start_instance with a False result: STARTED. -/
def brun3 : Ctrl Bool Nat := { brun2 with state := States.STARTED }

theorem connect_worker_fields {s s1 : Ctrl Build Kind}
    (h : connect_worker s = some s1) :
    s1.state = s.state ∧ s1.started_kind = s.started_kind
      ∧ s1.started_kind_deferred = s.started_kind_deferred
      ∧ s1.kind = s.kind := by
  unfold connect_worker at h
  split at h
  · cases h
    exact ⟨rfl, rfl, rfl, rfl⟩
  · split at h
    · exact absurd h (by simp)
    · cases h
      exact ⟨rfl, rfl, rfl, rfl⟩

theorem do_start_instance_fields {v : Bool} {s s1 : Ctrl Build Kind}
    (h : do_start_instance v s = some s1) :
    s.state = States.STARTING ∧ s1.state = States.STARTED
      ∧ s1.started_kind = s.started_kind
      ∧ s1.started_kind_deferred = s.started_kind_deferred
      ∧ s1.kind = s.kind := by
  unfold do_start_instance at h
  split at h
  case isTrue hst =>
    split at h
    · have hc := connect_worker_fields h
      exact ⟨hst, hc.1, hc.2.1, hc.2.2.1, hc.2.2.2⟩
    · cases h
      exact ⟨hst, rfl, rfl, rfl, rfl⟩
  case isFalse => exact absurd h (by simp)

theorem do_stop_instance_fields {s s1 : Ctrl Build Kind}
    (h : do_stop_instance s = some s1) :
    s.state = States.STOPPING ∧ s1.state = States.STOPPED
      ∧ s1.started_kind = Option.none
      ∧ s1.started_kind_deferred = s.started_kind_deferred
      ∧ s1.kind = s.kind := by
  unfold do_stop_instance at h
  split at h
  case isTrue hst =>
    split at h <;> cases h <;> exact ⟨hst, rfl, rfl, rfl, rfl⟩
  case isFalse => exact absurd h (by simp)

theorem ctrl_start_instance_fields {v r : Bool} {s s1 : Ctrl Build Kind}
    (h : ctrl_start_instance v s = some (s1, r)) :
    s.state = States.STARTING ∧ s1.state = States.STARTED
      ∧ s1.started_kind = s.started_kind
      ∧ s1.started_kind_deferred = s.started_kind_deferred
      ∧ s1.kind = s.kind ∧ r = v := by
  unfold ctrl_start_instance at h
  cases hdo : do_start_instance v s with
  | none => rw [hdo] at h; exact absurd h (by simp)
  | some s2 =>
    rw [hdo] at h
    simp only [Option.some_bind] at h
    obtain ⟨g1, g2, g3, g4, g5⟩ := do_start_instance_fields hdo
    split at h
    · exact absurd h (by simp)
    · injection h with h2
      injection h2 with hs hr
      subst hs
      subst hr
      exact ⟨g1, g2, g3, g4, g5, rfl⟩

theorem ctrl_stop_instance_fields {v r : Bool} {s s1 : Ctrl Build Kind}
    (h : ctrl_stop_instance v s = some (s1, r)) :
    s.state = States.STOPPING ∧ s1.state = States.STOPPED
      ∧ s1.started_kind = Option.none
      ∧ s1.started_kind_deferred = s.started_kind_deferred
      ∧ s1.kind = s.kind ∧ r = v := by
  unfold ctrl_stop_instance at h
  cases hdo : do_stop_instance s with
  | none => rw [hdo] at h; exact absurd h (by simp)
  | some s2 =>
    rw [hdo] at h
    simp only [Option.some_bind] at h
    obtain ⟨g1, g2, g3, g4, g5⟩ := do_stop_instance_fields hdo
    split at h
    · exact absurd h (by simp)
    · injection h with h2
      injection h2 with hs hr
      subst hs
      subst hr
      exact ⟨g1, g2, g3, g4, g5, rfl⟩

theorem setup_kind_fields (b : Option Build) (s : Ctrl Build Kind) :
    (setup_kind b s).state = s.state
      ∧ (setup_kind b s).started_kind = s.started_kind
      ∧ (setup_kind b s).kind = s.kind
      ∧ (setup_kind b s).auto_start_flag = s.auto_start_flag := by
  cases b with
  | some bb => exact ⟨rfl, rfl, rfl, rfl⟩
  | none =>
    obtain ⟨st, hc, k, sk, skd, a1, a2, a3, a4, rw1, rp, bwt, sd1, sd2, sc, ke⟩ := s
    cases k <;> exact ⟨rfl, rfl, rfl, rfl⟩

theorem worker_start_instance_fields {b : Option Build} {s s1 : Ctrl Build Kind}
    {r : StartRet} (h : worker_start_instance b s = some (s1, r)) :
    s.state = States.STOPPED
      ∧ (s1.state = States.STARTING ∨ s1.state = States.STARTED)
      ∧ s1.started_kind = s.started_kind
      ∧ s1.kind = s.kind := by
  unfold worker_start_instance at h
  obtain ⟨hst, hsk, hk, _⟩ := setup_kind_fields b s
  split at h
  case isTrue h0 =>
    split at h
    · cases hdo : do_start_instance true
        { setup_kind b s with state := States.STARTING } with
      | none => rw [hdo] at h; exact absurd h (by simp)
      | some s2 =>
        rw [hdo] at h
        simp only [Option.map_some'] at h
        injection h with h2
        injection h2 with hs hr
        subst hs
        obtain ⟨g1, g2, g3, g4, g5⟩ := do_start_instance_fields hdo
        exact ⟨hst.symm.trans h0, Or.inr g2, g3.trans hsk, g5.trans hk⟩
    · injection h with h2
      injection h2 with hs hr
      subst hs
      exact ⟨hst.symm.trans h0, Or.inl rfl, hsk, hk⟩
  case isFalse => exact absurd h (by simp)

theorem worker_stop_instance_fields {f : Bool} {s s1 : Ctrl Build Kind}
    {r : StopRet} (h : worker_stop_instance f s = some (s1, r)) :
    s.state = States.STARTED
      ∧ ((s1.state = States.STOPPING ∧ s1.started_kind = s.started_kind)
          ∨ (s1.state = States.STOPPED ∧ s1.started_kind = Option.none))
      ∧ s1.started_kind_deferred = s.started_kind_deferred
      ∧ s1.kind = s.kind := by
  unfold worker_stop_instance at h
  split at h
  case isTrue h0 =>
    split at h
    · cases hdo : do_stop_instance { s with state := States.STOPPING } with
      | none => rw [hdo] at h; exact absurd h (by simp)
      | some s2 =>
        rw [hdo] at h
        simp only [Option.map_some'] at h
        injection h with h2
        injection h2 with hs hr
        subst hs
        obtain ⟨g1, g2, g3, g4, g5⟩ := do_stop_instance_fields hdo
        exact ⟨h0, Or.inr ⟨g2, g3⟩, g4, g5⟩
    · injection h with h2
      injection h2 with hs hr
      subst hs
      exact ⟨h0, Or.inl ⟨rfl, rfl⟩, rfl, rfl⟩
  case isFalse => exact absurd h (by simp)

theorem auto_start_fields {v : Bool} {s s1 : Ctrl Build Kind}
    (h : auto_start v s = some s1) :
    (s1.state = s.state ∨ (s.state = States.STARTING ∧ s1.state = States.STARTED))
      ∧ s1.started_kind = s.started_kind
      ∧ s1.started_kind_deferred = s.started_kind_deferred
      ∧ s1.kind = s.kind := by
  unfold auto_start at h
  split at h
  case isTrue h0 =>
    cases hc : ctrl_start_instance true { s with auto_start_flag := v } with
    | none => rw [hc] at h; exact absurd h (by simp)
    | some p =>
      obtain ⟨p1, p2⟩ := p
      rw [hc] at h
      simp only [Option.map_some'] at h
      injection h with hs
      subst hs
      obtain ⟨g1, g2, g3, g4, g5, g6⟩ := ctrl_start_instance_fields hc
      exact ⟨Or.inr ⟨g1, g2⟩, g3, g4, g5⟩
  case isFalse =>
    injection h with hs
    subst hs
    exact ⟨Or.inl rfl, rfl, rfl, rfl⟩

theorem auto_stop_fields {v : Bool} {s s1 : Ctrl Build Kind}
    (h : auto_stop v s = some s1) :
    ((s1.state = s.state ∧ s1.started_kind = s.started_kind)
        ∨ (s.state = States.STOPPING ∧ s1.state = States.STOPPED
            ∧ s1.started_kind = Option.none))
      ∧ s1.started_kind_deferred = s.started_kind_deferred
      ∧ s1.kind = s.kind := by
  unfold auto_stop at h
  split at h
  case isTrue h0 =>
    cases hc : ctrl_stop_instance true { s with auto_stop_flag := v } with
    | none => rw [hc] at h; exact absurd h (by simp)
    | some p =>
      obtain ⟨p1, p2⟩ := p
      rw [hc] at h
      simp only [Option.map_some'] at h
      injection h with hs
      subst hs
      obtain ⟨g1, g2, g3, g4, g5, g6⟩ := ctrl_stop_instance_fields hc
      exact ⟨Or.inr ⟨g1, g2, g3⟩, g4, g5⟩
  case isFalse =>
    injection h with hs
    subst hs
    exact ⟨Or.inl ⟨rfl, rfl⟩, rfl, rfl⟩

theorem get_started_kind_fields {s s1 : Ctrl Build Kind} {v : Option Kind}
    (h : get_started_kind s = some (v, s1)) :
    s1.state = s.state ∧ s1.kind = s.kind
      ∧ ((s1 = s ∧ v = s.started_kind)
          ∨ (∃ b : Build, s.started_kind_deferred = Slot.pending b
              ∧ v = renderKind b s.kind ∧ s1.started_kind = v
              ∧ s1.started_kind_deferred = Slot.empty)) := by
  unfold get_started_kind at h
  split at h
  case h_1 heq =>
    injection h with h2
    injection h2 with hv hs
    subst hs
    exact ⟨rfl, rfl, Or.inl ⟨rfl, hv.symm⟩⟩
  case h_2 b heq =>
    injection h with h2
    injection h2 with hv hs
    subst hs
    exact ⟨rfl, rfl, Or.inr ⟨b, heq, hv.symm, hv ▸ rfl, rfl⟩⟩
  case h_3 heq => exact absurd h (by simp)

theorem isCompatibleWithBuild_fields {b : Build} {r : Bool}
    {s s1 : Ctrl Build Kind} (h : isCompatibleWithBuild b s = some (r, s1)) :
    s1.state = s.state ∧ s1.kind = s.kind
      ∧ (s1 = s
          ∨ (s.state ≠ States.STOPPED ∧ s1.started_kind_deferred = Slot.empty
              ∧ ∃ bb : Build, s.started_kind_deferred = Slot.pending bb
                  ∧ s1.started_kind = renderKind bb s.kind)) := by
  unfold isCompatibleWithBuild at h
  split at h
  case isTrue h0 =>
    injection h with h2
    injection h2 with hr hs
    subst hs
    exact ⟨rfl, rfl, Or.inl rfl⟩
  case isFalse h0 =>
    cases hg : get_started_kind s with
    | none => rw [hg] at h; exact absurd h (by simp)
    | some p =>
      obtain ⟨pv, ps⟩ := p
      rw [hg] at h
      simp only [Option.map_some'] at h
      injection h with h2
      injection h2 with hr hs
      subst hs
      obtain ⟨g1, g2, g3⟩ := get_started_kind_fields hg
      rcases g3 with ⟨hss, hvv⟩ | ⟨bb, hp, hv, hk1, hk2⟩
      · subst hss
        exact ⟨rfl, rfl, Or.inl rfl⟩
      · exact ⟨g1, g2, Or.inr ⟨h0, hk2, bb, hp, hv ▸ hk1⟩⟩

theorem edgeOk_refl (a : States) : edgeOk a a = true := by
  cases a <;> rfl

theorem step_edge {s s1 : Ctrl Build Kind} (h : Step s s1) :
    edgeOk s.state s1.state = true := by
  cases h with
  | startI b r he =>
    obtain ⟨g1, g2, _, _⟩ := worker_start_instance_fields he
    rcases g2 with g2 | g2 <;> rw [g1, g2] <;> decide
  | resolveStart v r he =>
    obtain ⟨g1, g2, _, _, _, _⟩ := ctrl_start_instance_fields he
    rw [g1, g2]
    decide
  | doStart v he =>
    obtain ⟨g1, g2, _, _, _⟩ := do_start_instance_fields he
    rw [g1, g2]
    decide
  | stopI f r he =>
    obtain ⟨g1, g2, _, _⟩ := worker_stop_instance_fields he
    rcases g2 with ⟨g2, _⟩ | ⟨g2, _⟩ <;> rw [g1, g2] <;> decide
  | resolveStop v r he =>
    obtain ⟨g1, g2, _, _, _, _⟩ := ctrl_stop_instance_fields he
    rw [g1, g2]
    decide
  | doStop he =>
    obtain ⟨g1, g2, _, _, _⟩ := do_stop_instance_fields he
    rw [g1, g2]
    decide
  | autoStart v he =>
    obtain ⟨g0, _, _, _⟩ := auto_start_fields he
    rcases g0 with g0 | ⟨ga, gb⟩
    · rw [g0]; exact edgeOk_refl s.state
    · rw [ga, gb]; decide
  | autoStop v he =>
    obtain ⟨g0, _, _⟩ := auto_stop_fields he
    rcases g0 with ⟨g0, _⟩ | ⟨ga, gb, _⟩
    · rw [g0]; exact edgeOk_refl s.state
    · rw [ga, gb]; decide
  | connect he =>
    rw [(connect_worker_fields he).1]
    exact edgeOk_refl s.state
  | disconnect => exact edgeOk_refl s.state
  | compat b r he =>
    rw [(isCompatibleWithBuild_fields he).1]
    exact edgeOk_refl s.state

theorem step_not_stopping_to_starting {s s1 : Ctrl Build Kind}
    (h : Step s s1) (h0 : s.state = States.STOPPING) :
    s1.state ≠ States.STARTING := by
  intro hx
  have he := step_edge h
  rw [h0, hx] at he
  exact absurd he (by decide)

theorem inv_init (kind : KindCfg Build Kind) (pkg : Bool) (bwt : Nat) :
    Inv (initController kind pkg bwt) :=
  ⟨fun _ => rfl, fun _ hk _ => Option.noConfusion hk⟩

theorem step_inv {s s1 : Ctrl Build Kind} (h : Step s s1) (hi : Inv s) :
    Inv s1 := by
  obtain ⟨hi1, hi2⟩ := hi
  cases h with
  | startI b r he =>
    obtain ⟨g1, g2, g3, g4⟩ := worker_start_instance_fields he
    have hnone : s1.started_kind = Option.none := g3.trans (hi1 g1)
    refine ⟨fun _ => hnone, fun k hk => ?_⟩
    rw [hnone] at hk
    exact Option.noConfusion hk
  | resolveStart v r he =>
    obtain ⟨g1, g2, g3, g4, g5, g6⟩ := ctrl_start_instance_fields he
    refine ⟨fun hx => absurd (g2.symm.trans hx) (by decide), fun k hk b1 => ?_⟩
    rw [g4]
    exact hi2 k (g3.symm.trans hk) b1
  | doStart v he =>
    obtain ⟨g1, g2, g3, g4, g5⟩ := do_start_instance_fields he
    refine ⟨fun hx => absurd (g2.symm.trans hx) (by decide), fun k hk b1 => ?_⟩
    rw [g4]
    exact hi2 k (g3.symm.trans hk) b1
  | stopI f r he =>
    obtain ⟨g1, g2, g3, g4⟩ := worker_stop_instance_fields he
    rcases g2 with ⟨ga, gb⟩ | ⟨ga, gb⟩
    · refine ⟨fun hx => absurd (ga.symm.trans hx) (by decide), fun k hk b1 => ?_⟩
      rw [g3]
      exact hi2 k (gb.symm.trans hk) b1
    · refine ⟨fun _ => gb, fun k hk => ?_⟩
      rw [gb] at hk
      exact Option.noConfusion hk
  | resolveStop v r he =>
    obtain ⟨g1, g2, g3, g4, g5, g6⟩ := ctrl_stop_instance_fields he
    refine ⟨fun _ => g3, fun k hk => ?_⟩
    rw [g3] at hk
    exact Option.noConfusion hk
  | doStop he =>
    obtain ⟨g1, g2, g3, g4, g5⟩ := do_stop_instance_fields he
    refine ⟨fun _ => g3, fun k hk => ?_⟩
    rw [g3] at hk
    exact Option.noConfusion hk
  | autoStart v he =>
    obtain ⟨g0, g3, g4, g5⟩ := auto_start_fields he
    rcases g0 with g0 | ⟨ga, gb⟩
    · refine ⟨fun hx => g3.trans (hi1 (g0.symm.trans hx)), fun k hk b1 => ?_⟩
      rw [g4]
      exact hi2 k (g3.symm.trans hk) b1
    · refine ⟨fun hx => absurd (gb.symm.trans hx) (by decide), fun k hk b1 => ?_⟩
      rw [g4]
      exact hi2 k (g3.symm.trans hk) b1
  | autoStop v he =>
    obtain ⟨g0, g4, g5⟩ := auto_stop_fields he
    rcases g0 with ⟨ga, gb⟩ | ⟨ga, gb, gc⟩
    · refine ⟨fun hx => gb.trans (hi1 (ga.symm.trans hx)), fun k hk b1 => ?_⟩
      rw [g4]
      exact hi2 k (gb.symm.trans hk) b1
    · refine ⟨fun _ => gc, fun k hk => ?_⟩
      rw [gc] at hk
      exact Option.noConfusion hk
  | connect he =>
    obtain ⟨g1, g2, g3, g4⟩ := connect_worker_fields he
    refine ⟨fun hx => g2.trans (hi1 (g1.symm.trans hx)), fun k hk b1 => ?_⟩
    rw [g3]
    exact hi2 k (g2.symm.trans hk) b1
  | disconnect => exact ⟨hi1, hi2⟩
  | compat b r he =>
    obtain ⟨g1, g2, g3⟩ := isCompatibleWithBuild_fields he
    rcases g3 with g3 | ⟨hne, hempty, bb, hp, hsk⟩
    · subst g3
      exact ⟨hi1, hi2⟩
    · refine ⟨fun hx => absurd (g1.symm.trans hx) hne, fun k hk b1 => ?_⟩
      rw [hempty]
      exact fun hc => Slot.noConfusion hc

theorem reachable_inv {s : Ctrl Build Kind} (h : Reachable s) : Inv s := by
  induction h with
  | init kind pkg bwt => exact inv_init kind pkg bwt
  | step hr hs ih => exact step_inv hs ih

theorem step01 : Step run0 run1 :=
  Step.startI (some 1) StartRet.pendingStart rfl

theorem step12 : Step run1 run2 :=
  Step.compat 1 true rfl

theorem step23 : Step run2 run3 :=
  Step.doStart false rfl

theorem step34 : Step run3 run4 :=
  Step.stopI false StopRet.pendingStop rfl

theorem reach_run2 : Reachable run2 :=
  Reachable.step (Reachable.step (Reachable.init kindAll0 true 600) step01)
    step12

theorem reach_run3 : Reachable run3 := Reachable.step reach_run2 step23

theorem reach_run4 : Reachable run4 := Reachable.step reach_run3 step34

theorem bstep01 : Step brun0 brun1 :=
  Step.startI (some true) StartRet.pendingStart rfl

theorem bstep12 : Step brun1 brun2 :=
  Step.compat true true rfl

theorem bstep23 : Step brun2 brun3 :=
  Step.doStart false rfl

theorem reach_brun3 : Reachable brun3 :=
  Reachable.step
    (Reachable.step (Reachable.step (Reachable.init kindOnTrue true 600)
      bstep01) bstep12) bstep23

/-- Claim C2: a start operation that resolves with failure while the worker is
STARTING ends with the worker STOPPED, the stored kind cleared, and the
failure result delivered to the waiter of that start operation.  The fake
resolves the start deferred with the failure itself; the return to STOPPED is
driven by the orchestration layer modelled from the spec in
start_failure_cycle. -/
theorem c2_start_failure_reaches_stopped (s : Ctrl Build Kind)
    (h1 : s.state = States.STARTING) (h2 : s.start_deferred = some ()) :
    (start_failure_cycle s).map (fun p => (p.1.state, p.1.started_kind, p.2))
      = some (States.STOPPED, Option.none, false) := by
  unfold start_failure_cycle ctrl_start_instance do_start_instance
  rw [if_pos h1]
  simp only [Bool.and_false, Bool.false_eq_true, if_false, Option.some_bind, h2]
  unfold worker_stop_instance do_stop_instance ctrl_stop_instance
    do_stop_instance disconnect_worker
  by_cases h3 : s.auto_stop_flag = true
  · simp [h3]
    split <;> rfl
  · simp [h3]
    split <;> rfl

/-- Witness for C2: the failure cycle run from a concrete STARTING controller
with a parked start deferred. -/
theorem c2_witness :
    (start_failure_cycle
        { (initController KindCfg.none true 600 : Ctrl Nat Nat) with
          state := States.STARTING,
          start_deferred := some () }).map
        (fun p => (p.1.state, p.1.started_kind, p.2))
      = some (States.STOPPED, Option.none, false) :=
  c2_start_failure_reaches_stopped _ rfl rfl

/-- Claim C3: resolving a stop while the worker is STOPPING always drives the
local state to STOPPED and clears the stored kind, and the given result,
success or failure alike, is still delivered to the waiter of the stop
deferred; a stop failure never leaves the machine outside STOPPED. -/
theorem c3_stop_resolution_reaches_stopped (s : Ctrl Build Kind) (r : Bool)
    (h1 : s.state = States.STOPPING) (h2 : s.stop_deferred = some ()) :
    (ctrl_stop_instance r s).map (fun p => (p.1.state, p.1.started_kind, p.2))
      = some (States.STOPPED, Option.none, r) := by
  unfold ctrl_stop_instance do_stop_instance disconnect_worker
  rw [if_pos h1]
  by_cases h4 : s.auto_disconnect_worker = true
  · simp [h4, h2]
  · simp [h4, h2]

/-- Witness for C3 at a concrete STOPPING controller, delivering a failing
stop result. -/
theorem c3_witness :
    (ctrl_stop_instance false
        { (initController KindCfg.none true 600 : Ctrl Nat Nat) with
          state := States.STOPPING,
          stop_deferred := some () }).map
        (fun p => (p.1.state, p.1.started_kind, p.2))
      = some (States.STOPPED, Option.none, false) :=
  c3_stop_resolution_reaches_stopped _ false rfl rfl

/-- Claim C8: after setup_kind records a pending kind computation, the first
get_started_kind call evaluates it, stores the result, and clears the slot,
and any further call returns the same stored kind from an unchanged
controller without evaluating anything (the kind_evals counter stays put
because the controller is a fixpoint of the second call). -/
theorem c8_kind_eval_once (s : Ctrl Build Kind) (b : Build) :
    ∃ s2 : Ctrl Build Kind,
      get_started_kind (setup_kind (some b) s)
          = some (renderKind b s.kind, s2)
        ∧ s2.started_kind = renderKind b s.kind
        ∧ s2.started_kind_deferred = Slot.empty
        ∧ s2.kind_evals = s.kind_evals + 1
        ∧ get_started_kind s2 = some (s2.started_kind, s2) :=
  ⟨_, rfl, rfl, rfl, rfl, rfl⟩

/-- Claim C9: connect_worker returns at once when a remote worker session is
already attached, creating no second session and changing nothing. -/
theorem c9_connect_idempotent (s : Ctrl Build Kind)
    (h : s.remote_worker = some ()) : connect_worker s = some s := by
  unfold connect_worker
  rw [h]
  rfl

/-- Witness for C9 at a concrete controller that already has a session. -/
theorem c9_witness :
    connect_worker
        { (initController KindCfg.none true 600 : Ctrl Nat Nat) with
          remote_worker := some () }
      = some { (initController KindCfg.none true 600 : Ctrl Nat Nat) with
               remote_worker := some () } :=
  c9_connect_idempotent _ rfl

/-- Claim C10: check_instance is a pure function of the crash flag, healthy
exactly when has_crashed is false, and its reason string is always empty,
with no precondition on the lifecycle state. -/
theorem c10_check_instance (s : Ctrl Build Kind) :
    check_instance s = (!s.has_crashed, "")
      ∧ ((check_instance s).1 = true ↔ s.has_crashed = false)
      ∧ (check_instance s).2 = "" := by
  refine ⟨rfl, ?_, rfl⟩
  cases hcr : s.has_crashed <;> simp [check_instance, hcr]

/-- Claim C1: every operation follows the edges of the four-state machine:
the worker's start_instance runs only while STOPPED and moves to STARTING
(reaching STARTED within the same call only via the STARTING edge when
auto_start_flag completes the start immediately); resolving a start runs
only while STARTING and moves to STARTED; the worker's stop_instance runs
only while STARTED and moves to STOPPING (reaching STOPPED within the same
call only via the STOPPING edge under auto_stop_flag); resolving a stop runs
only while STOPPING and moves to STOPPED; and every step's overall state
change is the identity, one of the four edges, or one of the two atomic
two-edge auto paths — in particular no operation moves STOPPING directly to
STARTING. -/
theorem c1_state_machine_edges :
    (∀ (b : Option Build) (s s1 : Ctrl Build Kind) (r : StartRet),
        worker_start_instance b s = some (s1, r) →
          s.state = States.STOPPED
            ∧ (s1.state = States.STARTING ∨ s1.state = States.STARTED))
      ∧ (∀ (v : Bool) (s s1 : Ctrl Build Kind) (r : Bool),
          ctrl_start_instance v s = some (s1, r) →
            s.state = States.STARTING ∧ s1.state = States.STARTED)
      ∧ (∀ (f : Bool) (s s1 : Ctrl Build Kind) (r : StopRet),
          worker_stop_instance f s = some (s1, r) →
            s.state = States.STARTED
              ∧ (s1.state = States.STOPPING ∨ s1.state = States.STOPPED))
      ∧ (∀ (v : Bool) (s s1 : Ctrl Build Kind) (r : Bool),
          ctrl_stop_instance v s = some (s1, r) →
            s.state = States.STOPPING ∧ s1.state = States.STOPPED)
      ∧ (∀ s s1 : Ctrl Build Kind, Step s s1 → edgeOk s.state s1.state = true)
      ∧ (∀ s s1 : Ctrl Build Kind, Step s s1 → s.state = States.STOPPING →
          s1.state ≠ States.STARTING) := by
  refine ⟨?_, ?_, ?_, ?_, ?_, ?_⟩
  · intro b s s1 r he
    obtain ⟨g1, g2, _, _⟩ := worker_start_instance_fields he
    exact ⟨g1, g2⟩
  · intro v s s1 r he
    obtain ⟨g1, g2, _, _, _, _⟩ := ctrl_start_instance_fields he
    exact ⟨g1, g2⟩
  · intro f s s1 r he
    obtain ⟨g1, g2, _, _⟩ := worker_stop_instance_fields he
    rcases g2 with ⟨g2, _⟩ | ⟨g2, _⟩
    · exact ⟨g1, Or.inl g2⟩
    · exact ⟨g1, Or.inr g2⟩
  · intro v s s1 r he
    obtain ⟨g1, g2, _, _, _, _⟩ := ctrl_stop_instance_fields he
    exact ⟨g1, g2⟩
  · intro s s1 hst
    exact step_edge hst
  · intro s s1 hst h0
    exact step_not_stopping_to_starting hst h0

/-- Witness for C1: resolving a start with a failing result at a concrete
STARTING controller follows the STARTING-to-STARTED edge. -/
theorem c1_witness :
    run1.state = States.STARTING
      ∧ ({ run1 with
           state := States.STARTED,
           start_deferred := Option.none } : Ctrl Nat Nat).state
          = States.STARTED :=
  c1_state_machine_edges.2.1 false run1 _ false rfl

/-- Claim C4: isCompatibleWithBuild answers True for every request while the
worker is STOPPED, and while STARTING or STARTED it answers True exactly
when the requested kind (the configured kind rendered against the requesting
build) equals the current started kind, an absent kind equalling an absent
kind. -/
theorem c4_compatibility_rule (b : Build) (s : Ctrl Build Kind) :
    (s.state = States.STOPPED → isCompatibleWithBuild b s = some (true, s))
      ∧ ((s.state = States.STARTING ∨ s.state = States.STARTED) →
          s.started_kind_deferred ≠ Slot.rawCfg →
          (isCompatibleWithBuild b s).map Prod.fst
            = some (decide (renderKind b s.kind = started_kind_value s))) := by
  constructor
  · intro h0
    unfold isCompatibleWithBuild
    rw [if_pos h0]
  · intro h0 h1
    have hne : ¬ s.state = States.STOPPED := by
      rcases h0 with h | h <;> rw [h] <;> exact fun hx => States.noConfusion hx
    unfold isCompatibleWithBuild
    rw [if_neg hne]
    unfold get_started_kind started_kind_value
    cases hs : s.started_kind_deferred with
    | empty => rfl
    | pending bb => rfl
    | rawCfg => exact absurd hs h1

/-- Witness for C4: a fresh STOPPED controller accepts any request, and the
concrete STARTED controller run3 compares the rendered kinds. -/
theorem c4_witness :
    isCompatibleWithBuild 3 run0 = some (true, run0)
      ∧ (isCompatibleWithBuild 1 run3).map Prod.fst
          = some (decide (renderKind 1 run3.kind = started_kind_value run3)) :=
  ⟨(c4_compatibility_rule 3 run0).1 rfl,
    (c4_compatibility_rule 1 run3).2 (Or.inr rfl) (by decide)⟩

/-- Counterexample to C5: run4 is a reachable STOPPING state whose started
kind renders equal to the requested kind, and isCompatibleWithBuild answers
True there, not False as the claim demands. -/
theorem c5_counterexample :
    run4.state = States.STOPPING
      ∧ (isCompatibleWithBuild 7 run4).map Prod.fst = some true
      ∧ Reachable run4 :=
  ⟨rfl, rfl, reach_run4⟩

/-- Claim C5 amended: while STOPPING, isCompatibleWithBuild applies the same
kind-equality comparison as while STARTING or STARTED — it answers True
exactly when the requested kind equals the started kind, which is not yet
cleared during STOPPING — rather than unconditionally answering False. -/
theorem c5_stopping_compat_amended (b : Build) (s : Ctrl Build Kind)
    (h0 : s.state = States.STOPPING)
    (h1 : s.started_kind_deferred ≠ Slot.rawCfg) :
    (isCompatibleWithBuild b s).map Prod.fst
      = some (decide (renderKind b s.kind = started_kind_value s)) := by
  have hne : ¬ s.state = States.STOPPED := by
    rw [h0]
    exact fun hx => States.noConfusion hx
  unfold isCompatibleWithBuild
  rw [if_neg hne]
  unfold get_started_kind started_kind_value
  cases hs : s.started_kind_deferred with
  | empty => rfl
  | pending bb => rfl
  | rawCfg => exact absurd hs h1

/-- Witness for the amended C5 at the concrete STOPPING controller run4. -/
theorem c5_witness :
    (isCompatibleWithBuild 7 run4).map Prod.fst
      = some (decide (renderKind 7 run4.kind = started_kind_value run4)) :=
  c5_stopping_compat_amended 7 run4 rfl (by decide)

/-- Counterexample to C6: brun3 is a reachable STARTED state whose started
kind is the token 0, and a request rendering to an absent (None) kind is
judged incompatible there, not compatible as the claim demands. -/
theorem c6_counterexample :
    brun3.state = States.STARTED
      ∧ renderKind false brun3.kind = Option.none
      ∧ started_kind_value brun3 = some 0
      ∧ (isCompatibleWithBuild false brun3).map Prod.fst = some false
      ∧ Reachable brun3 :=
  ⟨rfl, rfl, rfl, rfl, reach_brun3⟩

/-- Claim C6 amended: while the worker is started, a request whose kind
renders to None is judged compatible exactly when the started kind is also
None; the code compares the kinds with plain equality, so an absent
requested kind does not match a present started kind. -/
theorem c6_none_kind_amended (b : Build) (s : Ctrl Build Kind)
    (h0 : s.state = States.STARTED)
    (h1 : s.started_kind_deferred ≠ Slot.rawCfg)
    (h2 : renderKind b s.kind = Option.none) :
    ((isCompatibleWithBuild b s).map Prod.fst = some true
      ↔ started_kind_value s = Option.none) := by
  have hne : ¬ s.state = States.STOPPED := by
    rw [h0]
    exact fun hx => States.noConfusion hx
  unfold isCompatibleWithBuild
  rw [if_neg hne]
  unfold get_started_kind started_kind_value
  cases hs : s.started_kind_deferred with
  | empty =>
    rw [h2]
    simp only [Option.map_some', Option.some.injEq, decide_eq_true_eq]
    exact ⟨fun h => h.symm, fun h => h.symm⟩
  | pending bb =>
    rw [h2]
    simp only [Option.map_some', Option.some.injEq, decide_eq_true_eq]
    exact ⟨fun h => h.symm, fun h => h.symm⟩
  | rawCfg => exact absurd hs h1

/-- Witness for the amended C6 at the concrete STARTED controller brun3. -/
theorem c6_witness :
    ((isCompatibleWithBuild false brun3).map Prod.fst = some true
      ↔ started_kind_value brun3 = Option.none) :=
  c6_none_kind_amended false brun3 rfl (by decide) rfl

/-- Claim C7: along every step taken from a reachable state, an operation
that ends with the state STOPPED leaves the stored kind cleared, and an
operation that ends outside STOPPED preserves a present stored kind — so the
stored kind is cleared exactly on transition into STOPPED. -/
theorem c7_kind_cleared_on_stopped {s s1 : Ctrl Build Kind}
    (hr : Reachable s) (hstep : Step s s1) :
    (s1.state = States.STOPPED → s1.started_kind = Option.none)
      ∧ (∀ k : Kind, s.started_kind = some k → s1.state ≠ States.STOPPED →
          s1.started_kind = some k) := by
  have hi := reachable_inv hr
  refine ⟨(step_inv hstep hi).1, ?_⟩
  intro k hk hne
  cases hstep with
  | startI b r he =>
    obtain ⟨g1, _, _, _⟩ := worker_start_instance_fields he
    rw [hi.1 g1] at hk
    exact Option.noConfusion hk
  | resolveStart v r he =>
    exact (ctrl_start_instance_fields he).2.2.1.trans hk
  | doStart v he =>
    exact (do_start_instance_fields he).2.2.1.trans hk
  | stopI f r he =>
    obtain ⟨_, g2, _, _⟩ := worker_stop_instance_fields he
    rcases g2 with ⟨_, gb⟩ | ⟨ga, _⟩
    · exact gb.trans hk
    · exact absurd ga hne
  | resolveStop v r he =>
    exact absurd (ctrl_stop_instance_fields he).2.1 hne
  | doStop he =>
    exact absurd (do_stop_instance_fields he).2.1 hne
  | autoStart v he =>
    exact (auto_start_fields he).2.1.trans hk
  | autoStop v he =>
    obtain ⟨g0, _, _⟩ := auto_stop_fields he
    rcases g0 with ⟨_, gb⟩ | ⟨_, gb, _⟩
    · exact gb.trans hk
    · exact absurd gb hne
  | connect he =>
    exact (connect_worker_fields he).2.1.trans hk
  | disconnect => exact hk
  | compat b r he =>
    obtain ⟨_, _, g3⟩ := isCompatibleWithBuild_fields he
    rcases g3 with g3 | ⟨_, _, bb, hp, _⟩
    · rw [g3]
      exact hk
    · exact absurd hp (hi.2 k hk bb)

/-- Witness for C7: the reachable run2 holds started kind 0 and the
do_start_instance step to run3 preserves it while ending outside STOPPED. -/
theorem c7_witness : run3.started_kind = some 0 :=
  (c7_kind_cleared_on_stopped reach_run2 step23).2 0 rfl (by decide)

end LatentFake
